import Mathlib

/-! # Connection contexts (`src/client/c/sgs/context.c`)

A shallow embedding of the connection-context implementation of the client
library, followed by theorems about construction, the eight callback setters
and `sgs_ctx_unset_all_cbs`.

Conventions of the embedding:

* a `char` is its code, a natural number; code `0` is the string terminator;
* a `const char *` argument is the list of bytes found at that address; the
  string it denotes ends at the first `0` byte (or at the end of the list,
  where the terminator sits);
* a function pointer is `Option Nat`: `none` is `NULL`, `some a` a function
  at address `a`;
* `*ctx` is passed and returned by value: a setter maps the record before the
  call to the record after it;
* `errno` is threaded explicitly through `sgs_ctx_create`.
-/

namespace Sgs

/-! ## C library pieces used by the source -/

/-- The `strlen` of the C library: number of bytes before the first `0`. -/
def strlen : List Nat → Nat
  | [] => 0
  | c :: cs => if c = 0 then 0 else strlen cs + 1

/-- The string denoted by a `const char *`: the bytes before the terminator. -/
def c_str (s : List Nat) : List Nat :=
  s.takeWhile (fun c => c != 0)

/-- The `strncpy` of the C library into an array of `cap` bytes: exactly `n`
bytes of `dst` are written, the bytes of the source string first and `0`
padding after them; bytes of `dst` from index `n` on are kept. -/
def strncpy {cap : Nat} (dst : Fin cap → Nat) (src : List Nat) (n : Nat) :
    Fin cap → Nat :=
  fun i =>
    if i.val < n then
      (if i.val < strlen src then src.getD i.val 0 else 0)
    else dst i

/-- Value of `ENOMEM` in `<errno.h>` (Linux numbering). -/
def ENOMEM : Nat := 12

/-- Value of `ENOBUFS` in `<errno.h>` (Linux numbering). -/
def ENOBUFS : Nat := 105

/-- A function pointer: `none` is `NULL`. -/
abbrev fn_ptr := Option Nat

/-- The null pointer. -/
abbrev NULL : fn_ptr := none

/-! ## The context record -/

/-- Modelled from the spec: the declaration of `struct sgs_context_impl` lives
in `sgs/private/context_impl.h`, which is not among the sources. The field
names are the ones `context.c` assigns to; the types follow the data model of
the spec: a hostname buffer of fixed capacity `cap` (the value of
`sizeof(ctx->hostname)`, kept as a parameter), an integer port, two
I/O-registration references and eight optional event callbacks. -/
structure sgs_context_impl (cap : Nat) where
  hostname : Fin cap → Nat
  port : Int
  reg_fd_cb : fn_ptr
  unreg_fd_cb : fn_ptr
  channel_joined_cb : fn_ptr
  channel_left_cb : fn_ptr
  channel_recv_msg_cb : fn_ptr
  disconnected_cb : fn_ptr
  logged_in_cb : fn_ptr
  login_failed_cb : fn_ptr
  reconnected_cb : fn_ptr
  recv_message_cb : fn_ptr
  deriving DecidableEq

/-- The `malloc` of the C library as POSIX specifies it. `heap` is what the
allocator has to offer: `none` when no storage is available, `some block` when
a block is, whose contents are whatever the memory held. On failure `NULL` is
returned and `errno` becomes `ENOMEM`; on success `errno` is left alone. -/
def malloc {cap : Nat} (heap : Option (sgs_context_impl cap)) (errno : Nat) :
    Option (sgs_context_impl cap) × Nat :=
  match heap with
  | none => (none, ENOMEM)
  | some block => (some block, errno)

/-! ## The operations of `context.c` -/

/-- Setter `sgs_ctx_set_channel_joined_cb`: one assignment to the field
`channel_joined_cb`. -/
def sgs_ctx_set_channel_joined_cb {cap : Nat} (ctx : sgs_context_impl cap)
    (callback : fn_ptr) : sgs_context_impl cap :=
  { ctx with channel_joined_cb := callback }

/-- Setter `sgs_ctx_set_channel_left_cb`: one assignment to the field
`channel_left_cb`. -/
def sgs_ctx_set_channel_left_cb {cap : Nat} (ctx : sgs_context_impl cap)
    (callback : fn_ptr) : sgs_context_impl cap :=
  { ctx with channel_left_cb := callback }

/-- Setter `sgs_ctx_set_channel_recv_msg_cb`: one assignment to the field
`channel_recv_msg_cb`. -/
def sgs_ctx_set_channel_recv_msg_cb {cap : Nat} (ctx : sgs_context_impl cap)
    (callback : fn_ptr) : sgs_context_impl cap :=
  { ctx with channel_recv_msg_cb := callback }

/-- Setter `sgs_ctx_set_disconnected_cb`: one assignment to the field
`disconnected_cb`. -/
def sgs_ctx_set_disconnected_cb {cap : Nat} (ctx : sgs_context_impl cap)
    (callback : fn_ptr) : sgs_context_impl cap :=
  { ctx with disconnected_cb := callback }

/-- Setter `sgs_ctx_set_logged_in_cb`: one assignment to the field
`logged_in_cb`. -/
def sgs_ctx_set_logged_in_cb {cap : Nat} (ctx : sgs_context_impl cap)
    (callback : fn_ptr) : sgs_context_impl cap :=
  { ctx with logged_in_cb := callback }

/-- Setter `sgs_ctx_set_login_failed_cb`: one assignment to the field
`login_failed_cb`. -/
def sgs_ctx_set_login_failed_cb {cap : Nat} (ctx : sgs_context_impl cap)
    (callback : fn_ptr) : sgs_context_impl cap :=
  { ctx with login_failed_cb := callback }

/-- Setter `sgs_ctx_set_reconnected_cb`: one assignment to the field
`reconnected_cb`. -/
def sgs_ctx_set_reconnected_cb {cap : Nat} (ctx : sgs_context_impl cap)
    (callback : fn_ptr) : sgs_context_impl cap :=
  { ctx with reconnected_cb := callback }

/-- Setter `sgs_ctx_set_recv_msg_cb`: one assignment to the field
`recv_message_cb`. -/
def sgs_ctx_set_recv_msg_cb {cap : Nat} (ctx : sgs_context_impl cap)
    (callback : fn_ptr) : sgs_context_impl cap :=
  { ctx with recv_message_cb := callback }

/-- Function `sgs_ctx_unset_all_cbs`: eight assignments of `NULL`, in source
order. -/
def sgs_ctx_unset_all_cbs {cap : Nat} (ctx : sgs_context_impl cap) :
    sgs_context_impl cap :=
  let ctx := { ctx with channel_joined_cb := NULL }
  let ctx := { ctx with channel_left_cb := NULL }
  let ctx := { ctx with channel_recv_msg_cb := NULL }
  let ctx := { ctx with disconnected_cb := NULL }
  let ctx := { ctx with logged_in_cb := NULL }
  let ctx := { ctx with login_failed_cb := NULL }
  let ctx := { ctx with reconnected_cb := NULL }
  { ctx with recv_message_cb := NULL }

/-- Function `sgs_ctx_create`. The result is the returned pointer (`none` for
`NULL`) paired with the value of `errno` after the call. `heap` and `errno` are the
state of the allocator and of `errno` before the call. `strlen(hostname) + 1`
is computed without wrap-around: the string and its terminator are an object
in memory, so their size is representable in `size_t`. `free` has no effect
visible here. -/
def sgs_ctx_create (cap : Nat) (heap : Option (sgs_context_impl cap))
    (errno : Nat) (hostname : List Nat) (port : Int)
    (reg_fd unreg_fd : fn_ptr) : Option (sgs_context_impl cap) × Nat :=
  match malloc heap errno with
  | (none, errno) => (none, errno)
  | (some ctx, errno) =>
    if strlen hostname + 1 > cap then
      (none, ENOBUFS)
    else
      let ctx := { ctx with hostname := strncpy ctx.hostname hostname cap }
      let ctx := { ctx with port := port }
      let ctx := { ctx with reg_fd_cb := reg_fd }
      let ctx := { ctx with unreg_fd_cb := unreg_fd }
      let ctx := sgs_ctx_unset_all_cbs ctx
      (some ctx, errno)

/-! ## Event kinds: the uniform `SetCallback` view of the eight setters -/

/-- The eight event kinds, named after the callback slot each one owns. -/
inductive event_kind
  | channel_joined
  | channel_left
  | channel_recv_msg
  | disconnected
  | logged_in
  | login_failed
  | reconnected
  | recv_message
  deriving DecidableEq, Repr

/-- Reading the callback slot of an event kind: the field the engine reads
when that event occurs. -/
def slot {cap : Nat} (ctx : sgs_context_impl cap) : event_kind → fn_ptr
  | .channel_joined => ctx.channel_joined_cb
  | .channel_left => ctx.channel_left_cb
  | .channel_recv_msg => ctx.channel_recv_msg_cb
  | .disconnected => ctx.disconnected_cb
  | .logged_in => ctx.logged_in_cb
  | .login_failed => ctx.login_failed_cb
  | .reconnected => ctx.reconnected_cb
  | .recv_message => ctx.recv_message_cb

/-- Operation `SetCallback(ctx, K, cb)`: the setter function of event kind `K`. -/
def SetCallback {cap : Nat} (ctx : sgs_context_impl cap) (K : event_kind)
    (cb : fn_ptr) : sgs_context_impl cap :=
  match K with
  | .channel_joined => sgs_ctx_set_channel_joined_cb ctx cb
  | .channel_left => sgs_ctx_set_channel_left_cb ctx cb
  | .channel_recv_msg => sgs_ctx_set_channel_recv_msg_cb ctx cb
  | .disconnected => sgs_ctx_set_disconnected_cb ctx cb
  | .logged_in => sgs_ctx_set_logged_in_cb ctx cb
  | .login_failed => sgs_ctx_set_login_failed_cb ctx cb
  | .reconnected => sgs_ctx_set_reconnected_cb ctx cb
  | .recv_message => sgs_ctx_set_recv_msg_cb ctx cb

/-- The bytes of the hostname buffer, first to last. -/
def hostname_bytes {cap : Nat} (ctx : sgs_context_impl cap) : List Nat :=
  List.ofFn ctx.hostname

/-- A block of storage as the allocator may hand it out: every byte and every
pointer holds leftover data. -/
def dirty_block (cap : Nat) : sgs_context_impl cap where
  hostname := fun i => 65 + i.val
  port := -7
  reg_fd_cb := some 1
  unreg_fd_cb := some 2
  channel_joined_cb := some 3
  channel_left_cb := some 4
  channel_recv_msg_cb := some 5
  disconnected_cb := some 6
  logged_in_cb := some 7
  login_failed_cb := some 8
  reconnected_cb := some 9
  recv_message_cb := some 10

/-- The eight event kinds, in the order of the setters in `context.c`. -/
def all_event_kinds : List event_kind :=
  [.channel_joined, .channel_left, .channel_recv_msg, .disconnected,
    .logged_in, .login_failed, .reconnected, .recv_message]

/-- Calling, for each kind of `kinds` in turn, the setter of that kind with the
`NULL` callback. -/
def unset_each {cap : Nat} (ctx : sgs_context_impl cap)
    (kinds : List event_kind) : sgs_context_impl cap :=
  kinds.foldl (fun c K => SetCallback c K NULL) ctx

/-- One call made on an existing context: one of the eight setters with some
callback, or `sgs_ctx_unset_all_cbs`. -/
inductive ctx_call
  | set_cb (K : event_kind) (cb : fn_ptr)
  | unset_all_cbs
  deriving DecidableEq, Repr

/-- The context after one call. -/
def run_call {cap : Nat} (ctx : sgs_context_impl cap) :
    ctx_call → sgs_context_impl cap
  | .set_cb K cb => SetCallback ctx K cb
  | .unset_all_cbs => sgs_ctx_unset_all_cbs ctx

/-- The context after a finite sequence of calls, first to last. -/
def run_calls {cap : Nat} (ctx : sgs_context_impl cap)
    (calls : List ctx_call) : sgs_context_impl cap :=
  calls.foldl run_call ctx

/-- The bytes of the hostname "game.example.com". -/
def game_example_com : List Nat :=
  [103, 97, 109, 101, 46, 101, 120, 97, 109, 112, 108, 101, 46, 99, 111, 109]

/-! ## Strings and the hostname buffer -/

/-- The `strlen` of a byte list is the length of the string it denotes. -/
theorem strlen_eq_length_c_str (s : List Nat) : strlen s = (c_str s).length := by
  induction s with
  | nil => rfl
  | cons c cs ih =>
    by_cases hc : c = 0
    · simp [strlen, c_str, hc]
    · simpa [strlen, c_str, hc] using ih

/-- Before the terminator, a byte list and the string it denotes agree. -/
theorem getD_eq_getD_c_str (s : List Nat) (i : Nat) (h : i < strlen s) :
    s.getD i 0 = (c_str s).getD i 0 := by
  induction s generalizing i with
  | nil => simp [strlen] at h
  | cons c cs ih =>
    by_cases hc : c = 0
    · simp [strlen, hc] at h
    · cases i with
      | zero => simp [c_str, hc]
      | succ j =>
        have hj : j < strlen cs := by simpa [strlen, hc] using h
        simpa [c_str, hc] using ih j hj

/-- Reading a string followed by at least one `0` byte gives the string. -/
theorem c_str_append_zeros (s : List Nat) (k : Nat) :
    c_str (c_str s ++ List.replicate (k + 1) 0) = c_str s := by
  induction s with
  | nil => simp [c_str, List.replicate_succ]
  | cons c cs ih =>
    by_cases hc : c = 0
    · simp [c_str, hc, List.replicate_succ]
    · simpa [c_str, hc] using ih

/-- After `strncpy` over the whole buffer, the buffer holds the source string
followed by `0` bytes up to its capacity; nothing of the old contents is left. -/
theorem ofFn_strncpy {cap : Nat} (dst : Fin cap → Nat) (src : List Nat)
    (h : strlen src ≤ cap) :
    List.ofFn (strncpy dst src cap) =
      c_str src ++ List.replicate (cap - strlen src) 0 := by
  apply List.ext_getElem
  · simp [← strlen_eq_length_c_str]; omega
  · intro i h1 h2
    have hi : i < cap := by simpa using h1
    simp only [List.getElem_ofFn, strncpy, hi, if_true]
    by_cases hlt : i < strlen src
    · have hlt2 : i < (c_str src).length := by rwa [← strlen_eq_length_c_str]
      rw [if_pos hlt, List.getElem_append_left hlt2, getD_eq_getD_c_str src i hlt]
      simp [List.getD_eq_getElem?_getD, hlt2]
    · have hge : (c_str src).length ≤ i := by rw [← strlen_eq_length_c_str]; omega
      rw [if_neg hlt, List.getElem_append_right hge]
      simp


/-- The `strlen` of a string followed by at least one `0` byte. -/
theorem strlen_append_zeros (s : List Nat) (k : Nat) :
    strlen (c_str s ++ List.replicate (k + 1) 0) = strlen s := by
  rw [strlen_eq_length_c_str, c_str_append_zeros, ← strlen_eq_length_c_str]

/-- With storage available, `sgs_ctx_create` is decided by the length test
alone; on success every field of the block has been overwritten. -/
theorem sgs_ctx_create_block (cap : Nat) (block : sgs_context_impl cap)
    (errno : Nat) (hostname : List Nat) (port : Int) (reg_fd unreg_fd : fn_ptr) :
    sgs_ctx_create cap (some block) errno hostname port reg_fd unreg_fd =
      if strlen hostname + 1 > cap then (none, ENOBUFS)
      else
        (some
          { hostname := strncpy block.hostname hostname cap
            port := port
            reg_fd_cb := reg_fd
            unreg_fd_cb := unreg_fd
            channel_joined_cb := NULL
            channel_left_cb := NULL
            channel_recv_msg_cb := NULL
            disconnected_cb := NULL
            logged_in_cb := NULL
            login_failed_cb := NULL
            reconnected_cb := NULL
            recv_message_cb := NULL }, errno) := by
  rfl

/-- Without storage, `sgs_ctx_create` returns `NULL` and leaves the `errno`
of `malloc`. -/
theorem sgs_ctx_create_no_storage (cap : Nat) (errno : Nat)
    (hostname : List Nat) (port : Int) (reg_fd unreg_fd : fn_ptr) :
    sgs_ctx_create cap none errno hostname port reg_fd unreg_fd =
      (none, ENOMEM) := by
  rfl

/-- A successful `sgs_ctx_create` had storage, passed the length test, and
returns the fully initialised block with `errno` untouched. -/
theorem sgs_ctx_create_success {cap : Nat} {heap : Option (sgs_context_impl cap)}
    {errno : Nat} {hostname : List Nat} {port : Int} {reg_fd unreg_fd : fn_ptr}
    {ctx : sgs_context_impl cap} {errno1 : Nat}
    (h : sgs_ctx_create cap heap errno hostname port reg_fd unreg_fd =
      (some ctx, errno1)) :
    ∃ block, heap = some block ∧ strlen hostname + 1 ≤ cap ∧ errno1 = errno ∧
      ctx =
        { hostname := strncpy block.hostname hostname cap
          port := port
          reg_fd_cb := reg_fd
          unreg_fd_cb := unreg_fd
          channel_joined_cb := NULL
          channel_left_cb := NULL
          channel_recv_msg_cb := NULL
          disconnected_cb := NULL
          logged_in_cb := NULL
          login_failed_cb := NULL
          reconnected_cb := NULL
          recv_message_cb := NULL } := by
  cases heap with
  | none => rw [sgs_ctx_create_no_storage] at h; simp at h
  | some block =>
    rw [sgs_ctx_create_block] at h
    by_cases hlen : strlen hostname + 1 > cap
    · rw [if_pos hlen] at h; simp at h
    · rw [if_neg hlen] at h
      simp only [Prod.mk.injEq, Option.some.injEq] at h
      exact ⟨block, rfl, by omega, h.2.symm, h.1.symm⟩


/-! ## Construction: error paths -/

/-- C1, as stated, fails when the allocator has no storage: with capacity 4
and the five-character hostname "host1", `sgs_ctx_create` returns `NULL` at the
`malloc` check, and `errno` is `ENOMEM`, not `ENOBUFS`. -/
theorem sgs_ctx_create_too_long_not_always_enobufs :
    ¬ (strlen [104, 111, 115, 116, 49] + 1 > 4 →
        sgs_ctx_create 4 none 0 [104, 111, 115, 116, 49] 1139 NULL NULL =
          (none, ENOBUFS)) := by
  decide

/-- C1 (amended): for every hostname whose length plus one terminator byte
exceeds the capacity of the hostname buffer, and for every port and pair of
I/O-registration references, `sgs_ctx_create` returns `NULL` whatever the
allocator does, and whenever the allocation succeeded it sets `errno` to
`ENOBUFS`, whatever the block and `errno` held before. -/
theorem sgs_ctx_create_hostname_too_long (cap : Nat) (hostname : List Nat)
    (port : Int) (reg_fd unreg_fd : fn_ptr)
    (hlong : strlen hostname + 1 > cap) :
    (∀ heap errno,
        (sgs_ctx_create cap heap errno hostname port reg_fd unreg_fd).1 = none) ∧
    (∀ block errno,
        sgs_ctx_create cap (some block) errno hostname port reg_fd unreg_fd =
          (none, ENOBUFS)) := by
  have hblock : ∀ block errno,
      sgs_ctx_create cap (some block) errno hostname port reg_fd unreg_fd =
        (none, ENOBUFS) := by
    intro block errno
    rw [sgs_ctx_create_block, if_pos hlong]
  refine ⟨?_, hblock⟩
  intro heap errno
  cases heap with
  | none => rw [sgs_ctx_create_no_storage]
  | some block => rw [hblock]

/-- Witness of C1 (amended): capacity 4 and the hostname "host1". -/
theorem sgs_ctx_create_hostname_too_long_witness :
    strlen [104, 111, 115, 116, 49] + 1 > 4 ∧
    (∀ heap errno,
        (sgs_ctx_create 4 heap errno [104, 111, 115, 116, 49] 1139
          (some 1) (some 2)).1 = none) ∧
    (∀ block errno,
        sgs_ctx_create 4 (some block) errno [104, 111, 115, 116, 49] 1139
          (some 1) (some 2) = (none, ENOBUFS)) :=
  ⟨by decide,
    sgs_ctx_create_hostname_too_long 4 [104, 111, 115, 116, 49] 1139
      (some 1) (some 2) (by decide)⟩

/-- C2, as stated, fails when the allocator has no storage: with capacity 4
and the one-character hostname "h", which fits, `sgs_ctx_create` returns
`NULL` and no context. -/
theorem sgs_ctx_create_fitting_not_always_success :
    ¬ (strlen [104] + 1 ≤ 4 →
        ∃ ctx, (sgs_ctx_create 4 none 0 [104] 1139 NULL NULL).1 = some ctx ∧
          ∀ K, slot ctx K = NULL) := by
  intro h
  obtain ⟨ctx, hctx, -⟩ := h (by decide)
  rw [sgs_ctx_create_no_storage] at hctx
  exact Option.noConfusion hctx

/-- C2 (amended): for every hostname whose length plus terminator fits in the
hostname buffer and for every port value, whenever the allocation of the
context succeeds (whatever the block held), `sgs_ctx_create` returns a
context, leaves `errno` alone, and each of the eight callback slots of that
context is `NULL`. -/
theorem sgs_ctx_create_fitting_succeeds (cap : Nat)
    (block : sgs_context_impl cap) (errno : Nat) (hostname : List Nat)
    (port : Int) (reg_fd unreg_fd : fn_ptr)
    (hfit : strlen hostname + 1 ≤ cap) :
    ∃ ctx,
      sgs_ctx_create cap (some block) errno hostname port reg_fd unreg_fd =
        (some ctx, errno) ∧
      ∀ K, slot ctx K = NULL := by
  have hnot : ¬ strlen hostname + 1 > cap := by omega
  rw [sgs_ctx_create_block, if_neg hnot]
  refine ⟨_, rfl, ?_⟩
  intro K
  cases K <;> rfl

/-- Witness of C2 (amended): capacity 4, the hostname "hos", a block full of
leftover data, a negative port. -/
theorem sgs_ctx_create_fitting_succeeds_witness :
    strlen [104, 111, 115] + 1 ≤ 4 ∧
    ∃ ctx,
      sgs_ctx_create 4 (some (dirty_block 4)) 5 [104, 111, 115] (-1)
        (some 1) (some 2) = (some ctx, 5) ∧
      ∀ K, slot ctx K = NULL :=
  ⟨by decide,
    sgs_ctx_create_fitting_succeeds 4 (dirty_block 4) 5 [104, 111, 115] (-1)
      (some 1) (some 2) (by decide)⟩

/-- C3: whenever the storage cannot be allocated, `sgs_ctx_create` returns
`NULL` (no context) for every hostname, port and pair of I/O-registration
references, and `errno` is the `ENOMEM` left by `malloc`, which differs from
the `ENOBUFS` of the capacity failure. -/
theorem sgs_ctx_create_allocation_failure (cap : Nat) (errno : Nat)
    (hostname : List Nat) (port : Int) (reg_fd unreg_fd : fn_ptr) :
    sgs_ctx_create cap none errno hostname port reg_fd unreg_fd =
      (none, ENOMEM) ∧
    ENOMEM ≠ ENOBUFS := by
  exact ⟨rfl, by decide⟩

/-! ## The setters and `sgs_ctx_unset_all_cbs` -/

/-- C4: for every event kind `K`, every context and every callback `cb`, the
`NULL` callback included, slot `K` after `SetCallback ctx K cb` holds exactly
`cb`; in particular after `SetCallback ctx K NULL` slot `K` is unset whatever
it held before. -/
theorem SetCallback_slot_same {cap : Nat} (ctx : sgs_context_impl cap)
    (K : event_kind) (cb : fn_ptr) :
    slot (SetCallback ctx K cb) K = cb ∧
    slot (SetCallback ctx K NULL) K = NULL := by
  cases K <;> exact ⟨rfl, rfl⟩

/-- C5: for every event kind `K`, every context and every callback `cb`,
`SetCallback ctx K cb` leaves each slot other than `K` holding the value it
held before the call. -/
theorem SetCallback_slot_other {cap : Nat} (ctx : sgs_context_impl cap)
    (K K1 : event_kind) (cb : fn_ptr) (hne : K1 ≠ K) :
    slot (SetCallback ctx K cb) K1 = slot ctx K1 := by
  cases K <;> cases K1 <;> first | rfl | exact absurd rfl hne

/-- Witness of C5: setting `channel_joined` on a context whose slots all hold
distinct callbacks leaves the same-signature slot `channel_left` alone. -/
theorem SetCallback_slot_other_witness :
    event_kind.channel_left ≠ event_kind.channel_joined ∧
    slot (SetCallback (dirty_block 4) .channel_joined (some 99)) .channel_left =
      slot (dirty_block 4) .channel_left :=
  ⟨by decide,
    SetCallback_slot_other (dirty_block 4) .channel_joined .channel_left
      (some 99) (by decide)⟩

/-- C6: for every event kind `K`, every context and every callback `cb`,
`SetCallback ctx K cb` leaves the stored hostname, the stored port and both
I/O-registration references equal to their values before the call. -/
theorem SetCallback_keeps_configuration {cap : Nat}
    (ctx : sgs_context_impl cap) (K : event_kind) (cb : fn_ptr) :
    (SetCallback ctx K cb).hostname = ctx.hostname ∧
    (SetCallback ctx K cb).port = ctx.port ∧
    (SetCallback ctx K cb).reg_fd_cb = ctx.reg_fd_cb ∧
    (SetCallback ctx K cb).unreg_fd_cb = ctx.unreg_fd_cb := by
  cases K <;> exact ⟨rfl, rfl, rfl, rfl⟩

/-- C7: for every context, whatever its eight callback slots hold beforehand,
after `sgs_ctx_unset_all_cbs` every one of the eight slots is `NULL`. -/
theorem sgs_ctx_unset_all_cbs_clears {cap : Nat} (ctx : sgs_context_impl cap)
    (K : event_kind) :
    slot (sgs_ctx_unset_all_cbs ctx) K = NULL := by
  cases K <;> rfl


/-! ## Construction: the capacity threshold and the stored configuration -/

/-- C8: with `cap` the capacity of the hostname buffer and the allocation
succeeding, `sgs_ctx_create` with a hostname of exactly `cap - 1` characters
returns a context, with a hostname of exactly `cap` characters it fails with
`ENOBUFS`, and in general it returns a context exactly when
`strlen hostname + 1 ≤ cap`. -/
theorem sgs_ctx_create_capacity_boundary (cap : Nat)
    (block : sgs_context_impl cap) (errno : Nat) (fits over : List Nat)
    (port : Int) (reg_fd unreg_fd : fn_ptr)
    (hfits : strlen fits + 1 = cap) (hover : strlen over = cap) :
    (∃ ctx, sgs_ctx_create cap (some block) errno fits port reg_fd unreg_fd =
        (some ctx, errno)) ∧
    sgs_ctx_create cap (some block) errno over port reg_fd unreg_fd =
        (none, ENOBUFS) ∧
    ∀ hostname,
      (sgs_ctx_create cap (some block) errno hostname port reg_fd
          unreg_fd).1.isSome = true ↔ strlen hostname + 1 ≤ cap := by
  refine ⟨?_, ?_, ?_⟩
  · have hnot : ¬ strlen fits + 1 > cap := by omega
    rw [sgs_ctx_create_block, if_neg hnot]
    exact ⟨_, rfl⟩
  · have hgt : strlen over + 1 > cap := by omega
    rw [sgs_ctx_create_block, if_pos hgt]
  · intro hostname
    rw [sgs_ctx_create_block]
    by_cases hgt : strlen hostname + 1 > cap
    · rw [if_pos hgt]
      constructor
      · intro h; simp at h
      · intro h; omega
    · rw [if_neg hgt]
      constructor
      · intro _; omega
      · intro _; rfl

/-- Witness of C8: capacity 4, the three characters "hos" are accepted and the
four characters "host" are refused. -/
theorem sgs_ctx_create_capacity_boundary_witness :
    strlen [104, 111, 115] + 1 = 4 ∧ strlen [104, 111, 115, 116] = 4 ∧
    (∃ ctx, sgs_ctx_create 4 (some (dirty_block 4)) 0 [104, 111, 115] 1139
        NULL NULL = (some ctx, 0)) ∧
    sgs_ctx_create 4 (some (dirty_block 4)) 0 [104, 111, 115, 116] 1139
        NULL NULL = (none, ENOBUFS) ∧
    ∀ hostname,
      (sgs_ctx_create 4 (some (dirty_block 4)) 0 hostname 1139 NULL
          NULL).1.isSome = true ↔ strlen hostname + 1 ≤ 4 :=
  ⟨by decide, by decide,
    sgs_ctx_create_capacity_boundary 4 (dirty_block 4) 0 [104, 111, 115]
      [104, 111, 115, 116] 1139 NULL NULL (by decide) (by decide)⟩

/-- C9: for every hostname accepted by `sgs_ctx_create`, the hostname stored
in the returned context, read as a terminated string, equals the hostname of
the caller in full: the same characters, the same length, and the terminator
sits inside the buffer, right after the last character. -/
theorem sgs_ctx_create_stores_hostname (cap : Nat)
    (heap : Option (sgs_context_impl cap)) (errno : Nat) (hostname : List Nat)
    (port : Int) (reg_fd unreg_fd : fn_ptr) (ctx : sgs_context_impl cap)
    (errno1 : Nat)
    (hok : sgs_ctx_create cap heap errno hostname port reg_fd unreg_fd =
      (some ctx, errno1)) :
    c_str (hostname_bytes ctx) = c_str hostname ∧
    strlen (hostname_bytes ctx) = strlen hostname ∧
    ∃ i : Fin cap, i.val = strlen hostname ∧ ctx.hostname i = 0 := by
  obtain ⟨block, -, hlen, -, rfl⟩ := sgs_ctx_create_success hok
  have hbytes := ofFn_strncpy block.hostname hostname (by omega)
  have hpad : cap - strlen hostname = (cap - strlen hostname - 1) + 1 := by
    omega
  rw [hpad] at hbytes
  refine ⟨?_, ?_, ?_⟩
  · show c_str (List.ofFn (strncpy block.hostname hostname cap)) = _
    rw [hbytes, c_str_append_zeros]
  · show strlen (List.ofFn (strncpy block.hostname hostname cap)) = _
    rw [hbytes, strlen_append_zeros]
  · refine ⟨⟨strlen hostname, by omega⟩, rfl, ?_⟩
    show strncpy block.hostname hostname cap ⟨strlen hostname, _⟩ = 0
    have hlt : strlen hostname < cap := by omega
    simp [strncpy, hlt]

/-- Witness of C9: capacity 6 and the hostname "host1", copied over a block
full of leftover data. -/
theorem sgs_ctx_create_stores_hostname_witness :
    ∃ ctx,
      sgs_ctx_create 6 (some (dirty_block 6)) 0 [104, 111, 115, 116, 49] 1139
        NULL NULL = (some ctx, 0) ∧
      c_str (hostname_bytes ctx) = c_str [104, 111, 115, 116, 49] ∧
      strlen (hostname_bytes ctx) = strlen [104, 111, 115, 116, 49] ∧
      ∃ i : Fin 6, i.val = strlen [104, 111, 115, 116, 49] ∧
        ctx.hostname i = 0 :=
  ⟨_, rfl,
    sgs_ctx_create_stores_hostname 6 (some (dirty_block 6)) 0
      [104, 111, 115, 116, 49] 1139 NULL NULL _ 0 rfl⟩

/-- C10: for every successful `sgs_ctx_create`, the stored port equals the
port argument and the stored `reg_fd_cb` and `unreg_fd_cb` equal the two
reference arguments; and the success does not depend on them: the same call
with any other integer port (negative or above 65535) and any other
references (`NULL` included) succeeds as well and stores those. -/
theorem sgs_ctx_create_stores_port_and_hooks (cap : Nat)
    (heap : Option (sgs_context_impl cap)) (errno : Nat) (hostname : List Nat)
    (port : Int) (reg_fd unreg_fd : fn_ptr) (ctx : sgs_context_impl cap)
    (errno1 : Nat)
    (hok : sgs_ctx_create cap heap errno hostname port reg_fd unreg_fd =
      (some ctx, errno1)) :
    ctx.port = port ∧ ctx.reg_fd_cb = reg_fd ∧ ctx.unreg_fd_cb = unreg_fd ∧
    ∀ (port1 : Int) (reg_fd1 unreg_fd1 : fn_ptr),
      ∃ ctx1,
        sgs_ctx_create cap heap errno hostname port1 reg_fd1 unreg_fd1 =
          (some ctx1, errno1) ∧
        ctx1.port = port1 ∧ ctx1.reg_fd_cb = reg_fd1 ∧
        ctx1.unreg_fd_cb = unreg_fd1 := by
  obtain ⟨block, rfl, hlen, rfl, rfl⟩ := sgs_ctx_create_success hok
  refine ⟨rfl, rfl, rfl, ?_⟩
  intro port1 reg_fd1 unreg_fd1
  have hnot : ¬ strlen hostname + 1 > cap := by omega
  rw [sgs_ctx_create_block, if_neg hnot]
  exact ⟨_, rfl, rfl, rfl, rfl⟩

/-- Witness of C10: port 70000 with two `NULL` references, and from there a
negative port. -/
theorem sgs_ctx_create_stores_port_and_hooks_witness :
    ∃ ctx,
      sgs_ctx_create 4 (some (dirty_block 4)) 0 [104, 111, 115] 70000
        NULL NULL = (some ctx, 0) ∧
      (ctx.port = 70000 ∧ ctx.reg_fd_cb = NULL ∧ ctx.unreg_fd_cb = NULL ∧
        ∀ (port1 : Int) (reg_fd1 unreg_fd1 : fn_ptr),
          ∃ ctx1,
            sgs_ctx_create 4 (some (dirty_block 4)) 0 [104, 111, 115] port1
              reg_fd1 unreg_fd1 = (some ctx1, 0) ∧
            ctx1.port = port1 ∧ ctx1.reg_fd_cb = reg_fd1 ∧
            ctx1.unreg_fd_cb = unreg_fd1) :=
  ⟨_, rfl,
    sgs_ctx_create_stores_port_and_hooks 4 (some (dirty_block 4)) 0
      [104, 111, 115] 70000 NULL NULL _ 0 rfl⟩


/-! ## Sequences of calls on a context -/

/-- Two contexts with the same configuration and the same eight slots are the
same context. -/
theorem ctx_eq_of_fields {cap : Nat} {a b : sgs_context_impl cap}
    (hhost : a.hostname = b.hostname) (hport : a.port = b.port)
    (hreg : a.reg_fd_cb = b.reg_fd_cb) (hunreg : a.unreg_fd_cb = b.unreg_fd_cb)
    (hslot : ∀ K, slot a K = slot b K) : a = b := by
  have h1 := hslot .channel_joined
  have h2 := hslot .channel_left
  have h3 := hslot .channel_recv_msg
  have h4 := hslot .disconnected
  have h5 := hslot .logged_in
  have h6 := hslot .login_failed
  have h7 := hslot .reconnected
  have h8 := hslot .recv_message
  cases a
  cases b
  simp only [slot] at h1 h2 h3 h4 h5 h6 h7 h8
  simp only at hhost hport hreg hunreg
  subst hhost hport hreg hunreg h1 h2 h3 h4 h5 h6 h7 h8
  rfl

/-- Reading any slot after a setter: the new callback in the slot of the
setter, the old value everywhere else. -/
theorem slot_SetCallback {cap : Nat} (ctx : sgs_context_impl cap)
    (K K1 : event_kind) (cb : fn_ptr) :
    slot (SetCallback ctx K cb) K1 = if K1 = K then cb else slot ctx K1 := by
  cases K <;> cases K1 <;> rfl

/-- No setter writes the hostname buffer. -/
theorem hostname_SetCallback {cap : Nat} (ctx : sgs_context_impl cap)
    (K : event_kind) (cb : fn_ptr) :
    (SetCallback ctx K cb).hostname = ctx.hostname := by
  cases K <;> rfl

/-- No setter writes the port. -/
theorem port_SetCallback {cap : Nat} (ctx : sgs_context_impl cap)
    (K : event_kind) (cb : fn_ptr) :
    (SetCallback ctx K cb).port = ctx.port := by
  cases K <;> rfl

/-- No setter writes `reg_fd_cb`. -/
theorem reg_fd_cb_SetCallback {cap : Nat} (ctx : sgs_context_impl cap)
    (K : event_kind) (cb : fn_ptr) :
    (SetCallback ctx K cb).reg_fd_cb = ctx.reg_fd_cb := by
  cases K <;> rfl

/-- No setter writes `unreg_fd_cb`. -/
theorem unreg_fd_cb_SetCallback {cap : Nat} (ctx : sgs_context_impl cap)
    (K : event_kind) (cb : fn_ptr) :
    (SetCallback ctx K cb).unreg_fd_cb = ctx.unreg_fd_cb := by
  cases K <;> rfl

/-- No call on an existing context writes the hostname buffer. -/
theorem hostname_run_call {cap : Nat} (ctx : sgs_context_impl cap)
    (call : ctx_call) : (run_call ctx call).hostname = ctx.hostname := by
  cases call with
  | set_cb K cb => exact hostname_SetCallback ctx K cb
  | unset_all_cbs => rfl

/-- The hostname buffer is the same after any finite sequence of calls. -/
theorem hostname_run_calls {cap : Nat} (ctx : sgs_context_impl cap)
    (calls : List ctx_call) : (run_calls ctx calls).hostname = ctx.hostname := by
  induction calls generalizing ctx with
  | nil => rfl
  | cons call rest ih =>
    show (run_calls (run_call ctx call) rest).hostname = ctx.hostname
    rw [ih, hostname_run_call]

/-- The configuration after `unset_each` is the one before. -/
theorem unset_each_configuration {cap : Nat} (ctx : sgs_context_impl cap)
    (kinds : List event_kind) :
    (unset_each ctx kinds).hostname = ctx.hostname ∧
    (unset_each ctx kinds).port = ctx.port ∧
    (unset_each ctx kinds).reg_fd_cb = ctx.reg_fd_cb ∧
    (unset_each ctx kinds).unreg_fd_cb = ctx.unreg_fd_cb := by
  induction kinds generalizing ctx with
  | nil => exact ⟨rfl, rfl, rfl, rfl⟩
  | cons K rest ih =>
    obtain ⟨h1, h2, h3, h4⟩ := ih (SetCallback ctx K NULL)
    refine ⟨?_, ?_, ?_, ?_⟩
    · exact h1.trans (hostname_SetCallback ctx K NULL)
    · exact h2.trans (port_SetCallback ctx K NULL)
    · exact h3.trans (reg_fd_cb_SetCallback ctx K NULL)
    · exact h4.trans (unreg_fd_cb_SetCallback ctx K NULL)

/-- A slot after `unset_each`: `NULL` when its kind is in the list, the old
value otherwise. -/
theorem slot_unset_each {cap : Nat} (ctx : sgs_context_impl cap)
    (kinds : List event_kind) (K1 : event_kind) :
    slot (unset_each ctx kinds) K1 = if K1 ∈ kinds then NULL else slot ctx K1 := by
  induction kinds generalizing ctx with
  | nil => simp [unset_each]
  | cons K rest ih =>
    show slot (unset_each (SetCallback ctx K NULL) rest) K1 = _
    rw [ih, slot_SetCallback]
    by_cases hrest : K1 ∈ rest
    · simp [hrest]
    · by_cases hK : K1 = K
      · simp [hK]
      · simp [hrest, hK]

/-- Every slot is `NULL` after `sgs_ctx_unset_all_cbs`. -/
theorem slot_unset_all {cap : Nat} (ctx : sgs_context_impl cap)
    (K : event_kind) : slot (sgs_ctx_unset_all_cbs ctx) K = NULL := by
  cases K <;> rfl



/-! ## Algebra of the setters and of `sgs_ctx_unset_all_cbs` -/

/-- C11: for every event kind `K`, every context and all callbacks `cb1`,
`cb2`, `SetCallback K cb1` followed by `SetCallback K cb2` yields the same
context as `SetCallback K cb2` alone, and slot `K` of that context holds
exactly `cb2`: the second value replaces the first and nothing of `cb1` is
retained, every slot being `cb2` for kind `K` and the value it had before the
two calls for any other kind. -/
theorem SetCallback_replaces {cap : Nat} (ctx : sgs_context_impl cap)
    (K : event_kind) (cb1 cb2 : fn_ptr) :
    SetCallback (SetCallback ctx K cb1) K cb2 = SetCallback ctx K cb2 ∧
    slot (SetCallback (SetCallback ctx K cb1) K cb2) K = cb2 ∧
    ∀ K1, slot (SetCallback (SetCallback ctx K cb1) K cb2) K1 =
      if K1 = K then cb2 else slot ctx K1 := by
  refine ⟨?_, ?_, ?_⟩
  · cases K <;> rfl
  · cases K <;> rfl
  · intro K1
    cases K <;> cases K1 <;> rfl

/-- C12: in every context reached from a successful `sgs_ctx_create` by any
finite sequence of the eight setters and `sgs_ctx_unset_all_cbs`, the length
of the stored hostname including its terminator does not exceed the capacity
of the hostname buffer; the stored string is still the one of the caller. -/
theorem hostname_within_capacity_reachable (cap : Nat)
    (heap : Option (sgs_context_impl cap)) (errno : Nat) (hostname : List Nat)
    (port : Int) (reg_fd unreg_fd : fn_ptr) (ctx : sgs_context_impl cap)
    (errno1 : Nat) (calls : List ctx_call)
    (hok : sgs_ctx_create cap heap errno hostname port reg_fd unreg_fd =
      (some ctx, errno1)) :
    strlen (hostname_bytes (run_calls ctx calls)) + 1 ≤ cap ∧
    c_str (hostname_bytes (run_calls ctx calls)) = c_str hostname := by
  obtain ⟨block, -, hlen, -, hctx⟩ := sgs_ctx_create_success hok
  have hbytes := ofFn_strncpy block.hostname hostname (by omega)
  have hpad : cap - strlen hostname = (cap - strlen hostname - 1) + 1 := by
    omega
  rw [hpad] at hbytes
  have hhost : ctx.hostname = strncpy block.hostname hostname cap := by
    rw [hctx]
  have hsame : hostname_bytes (run_calls ctx calls) =
      List.ofFn (strncpy block.hostname hostname cap) := by
    show List.ofFn (run_calls ctx calls).hostname = _
    rw [hostname_run_calls, hhost]
  rw [hsame, hbytes, strlen_append_zeros, c_str_append_zeros]
  exact ⟨hlen, rfl⟩

/-- Witness of C12: capacity 6, the hostname "host1", then a setter, a reset
and another setter. -/
theorem hostname_within_capacity_reachable_witness :
    ∃ ctx,
      sgs_ctx_create 6 (some (dirty_block 6)) 0 [104, 111, 115, 116, 49] 1139
        NULL NULL = (some ctx, 0) ∧
      strlen (hostname_bytes (run_calls ctx
        [.set_cb .logged_in (some 7), .unset_all_cbs,
          .set_cb .reconnected (some 9)])) + 1 ≤ 6 ∧
      c_str (hostname_bytes (run_calls ctx
        [.set_cb .logged_in (some 7), .unset_all_cbs,
          .set_cb .reconnected (some 9)])) = c_str [104, 111, 115, 116, 49] :=
  ⟨_, rfl,
    hostname_within_capacity_reachable 6 (some (dirty_block 6)) 0
      [104, 111, 115, 116, 49] 1139 NULL NULL _ 0 _ rfl⟩

/-- C13, as stated, fails when the allocator has no storage: with capacity 17
the construction with "game.example.com" and port 1139 returns no context, so
there is nothing to install callbacks on. -/
theorem end_to_end_needs_storage :
    ¬ (17 ≤ 17 →
        ∃ ctx,
          (sgs_ctx_create 17 none 0 game_example_com 1139 NULL NULL).1 =
            some ctx) := by
  intro h
  obtain ⟨ctx, hctx⟩ := h (Nat.le_refl 17)
  rw [sgs_ctx_create_no_storage] at hctx
  exact Option.noConfusion hctx

/-- C13 (amended): with capacity at least 17 and the allocation succeeding,
constructing with hostname "game.example.com" and port 1139 succeeds; after
then installing a `logged_in` callback `f` and a `disconnected` callback `g`,
the slot read for a `logged_in` event holds exactly `f`, the slot read for a
`disconnected` event holds `g`, and the slot read for a `channel_joined` event
is `NULL`. -/
theorem end_to_end_scenario (cap : Nat) (block : sgs_context_impl cap)
    (errno : Nat) (reg_fd unreg_fd f g : fn_ptr) (hcap : 17 ≤ cap) :
    ∃ ctx,
      sgs_ctx_create cap (some block) errno game_example_com 1139 reg_fd
        unreg_fd = (some ctx, errno) ∧
      slot (SetCallback (SetCallback ctx .logged_in f) .disconnected g)
        .logged_in = f ∧
      slot (SetCallback (SetCallback ctx .logged_in f) .disconnected g)
        .disconnected = g ∧
      slot (SetCallback (SetCallback ctx .logged_in f) .disconnected g)
        .channel_joined = NULL := by
  have hlen : strlen game_example_com = 16 := by decide
  have hnot : ¬ strlen game_example_com + 1 > cap := by omega
  rw [sgs_ctx_create_block, if_neg hnot]
  exact ⟨_, rfl, rfl, rfl, rfl⟩

/-- Witness of C13 (amended): capacity exactly 17, a block full of leftover
data, two distinct callbacks. -/
theorem end_to_end_scenario_witness :
    17 ≤ 17 ∧
    ∃ ctx,
      sgs_ctx_create 17 (some (dirty_block 17)) 0 game_example_com 1139 NULL
        NULL = (some ctx, 0) ∧
      slot (SetCallback (SetCallback ctx .logged_in (some 100)) .disconnected
        (some 200)) .logged_in = some 100 ∧
      slot (SetCallback (SetCallback ctx .logged_in (some 100)) .disconnected
        (some 200)) .disconnected = some 200 ∧
      slot (SetCallback (SetCallback ctx .logged_in (some 100)) .disconnected
        (some 200)) .channel_joined = NULL :=
  ⟨Nat.le_refl 17,
    end_to_end_scenario 17 (dirty_block 17) 0 NULL NULL (some 100) (some 200)
      (Nat.le_refl 17)⟩

/-- C14: for every context, `sgs_ctx_unset_all_cbs` leaves the stored
hostname, the stored port and both I/O-registration references unchanged. -/
theorem sgs_ctx_unset_all_cbs_keeps_configuration {cap : Nat}
    (ctx : sgs_context_impl cap) :
    (sgs_ctx_unset_all_cbs ctx).hostname = ctx.hostname ∧
    (sgs_ctx_unset_all_cbs ctx).port = ctx.port ∧
    (sgs_ctx_unset_all_cbs ctx).reg_fd_cb = ctx.reg_fd_cb ∧
    (sgs_ctx_unset_all_cbs ctx).unreg_fd_cb = ctx.unreg_fd_cb :=
  ⟨rfl, rfl, rfl, rfl⟩

/-- C15: for every context, `sgs_ctx_unset_all_cbs` yields the same context as
applying the eight setters, one per event kind in any order (any permutation
of the eight kinds), each with the `NULL` callback. -/
theorem sgs_ctx_unset_all_cbs_eq_unset_each {cap : Nat}
    (ctx : sgs_context_impl cap) (kinds : List event_kind)
    (hperm : kinds.Perm all_event_kinds) :
    sgs_ctx_unset_all_cbs ctx = unset_each ctx kinds := by
  have hall : ∀ K, K ∈ kinds := by
    intro K
    rw [hperm.mem_iff]
    cases K <;> simp [all_event_kinds]
  obtain ⟨h1, h2, h3, h4⟩ := unset_each_configuration ctx kinds
  apply ctx_eq_of_fields
  · exact h1.symm
  · exact h2.symm
  · exact h3.symm
  · exact h4.symm
  · intro K
    rw [slot_unset_all, slot_unset_each, if_pos (hall K)]

/-- Witness of C15: the setters called in an order different from the one of
the assignments in `sgs_ctx_unset_all_cbs`, on a context with all slots set. -/
theorem sgs_ctx_unset_all_cbs_eq_unset_each_witness :
    List.Perm
      [event_kind.recv_message, .logged_in, .channel_left, .reconnected,
        .channel_recv_msg, .disconnected, .login_failed, .channel_joined]
      all_event_kinds ∧
    sgs_ctx_unset_all_cbs (dirty_block 4) =
      unset_each (dirty_block 4)
        [.recv_message, .logged_in, .channel_left, .reconnected,
          .channel_recv_msg, .disconnected, .login_failed, .channel_joined] :=
  ⟨by decide,
    sgs_ctx_unset_all_cbs_eq_unset_each (dirty_block 4)
      [.recv_message, .logged_in, .channel_left, .reconnected,
        .channel_recv_msg, .disconnected, .login_failed, .channel_joined]
      (by decide)⟩

/-- C16: for every context, any two distinct event kinds `K1 ≠ K2` and any
callbacks `cb1`, `cb2`, the setters commute. -/
theorem SetCallback_comm {cap : Nat} (ctx : sgs_context_impl cap)
    (K1 K2 : event_kind) (cb1 cb2 : fn_ptr) (hne : K1 ≠ K2) :
    SetCallback (SetCallback ctx K1 cb1) K2 cb2 =
      SetCallback (SetCallback ctx K2 cb2) K1 cb1 := by
  cases K1 <;> cases K2 <;> first | rfl | exact absurd rfl hne

/-- Witness of C16: the two same-signature setters `disconnected` and
`reconnected`. -/
theorem SetCallback_comm_witness :
    event_kind.disconnected ≠ event_kind.reconnected ∧
    SetCallback (SetCallback (dirty_block 4) .disconnected (some 11))
        .reconnected (some 12) =
      SetCallback (SetCallback (dirty_block 4) .reconnected (some 12))
        .disconnected (some 11) :=
  ⟨by decide,
    SetCallback_comm (dirty_block 4) .disconnected .reconnected (some 11)
      (some 12) (by decide)⟩

/-- C17: `sgs_ctx_unset_all_cbs` is idempotent on every context, and for every
successful `sgs_ctx_create`, applying `sgs_ctx_unset_all_cbs` to the returned
context gives an identical context. -/
theorem sgs_ctx_unset_all_cbs_idempotent_and_fresh_noop (cap : Nat)
    (heap : Option (sgs_context_impl cap)) (errno : Nat) (hostname : List Nat)
    (port : Int) (reg_fd unreg_fd : fn_ptr) (ctx : sgs_context_impl cap)
    (errno1 : Nat)
    (hok : sgs_ctx_create cap heap errno hostname port reg_fd unreg_fd =
      (some ctx, errno1)) :
    (∀ c : sgs_context_impl cap,
      sgs_ctx_unset_all_cbs (sgs_ctx_unset_all_cbs c) =
        sgs_ctx_unset_all_cbs c) ∧
    sgs_ctx_unset_all_cbs ctx = ctx := by
  obtain ⟨block, -, -, -, rfl⟩ := sgs_ctx_create_success hok
  exact ⟨fun _ => rfl, rfl⟩

/-- Witness of C17: a context freshly constructed over a block full of
leftover data. -/
theorem sgs_ctx_unset_all_cbs_idempotent_and_fresh_noop_witness :
    ∃ ctx,
      sgs_ctx_create 4 (some (dirty_block 4)) 0 [104, 111, 115] 1139
        (some 1) (some 2) = (some ctx, 0) ∧
      (∀ c : sgs_context_impl 4,
        sgs_ctx_unset_all_cbs (sgs_ctx_unset_all_cbs c) =
          sgs_ctx_unset_all_cbs c) ∧
      sgs_ctx_unset_all_cbs ctx = ctx :=
  ⟨_, rfl,
    sgs_ctx_unset_all_cbs_idempotent_and_fresh_noop 4 (some (dirty_block 4)) 0
      [104, 111, 115] 1139 (some 1) (some 2) _ 0 rfl⟩

end Sgs
